import Mathlib

/-
Verification development for the azure-mcp-example repository.

The repository is a small MCP tool server (mcp-poc.py) over two helper
modules: azure_rest_formcp.py (raw Azure Resource Manager REST helpers,
including the delete_vm long-running-operation poll loop) and
azure_client.py (credentials wrapper with pagination and a safe
power-state helper).

The embedding models JSON values, Python truthiness and dict access,
HTTP responses as passed-in data (status / parsed body / headers), and
Python exceptions as an explicit error type threaded through Except.
External effects (the actual HTTP exchanges) are supplied as oracle
data: each modelled function receives the response(s) the network
would have produced and the model records which provider requests the
code would have issued.
-/

/-- JSON values as produced by Python's json module / requests .json(). -/
inductive Json where
  | null
  | boolean (b : Bool)
  | str (s : String)
  | num (n : Int)
  | arr (elems : List Json)
  | obj (fields : List (String × Json))
deriving Inhabited

/-- Python dict .get(k): first binding of the key, none when absent or when
the value is not a dict (callers that would crash on non-dicts are modelled
separately where it matters). -/
def Json.getOpt : Json → String → Option Json
  | .obj fields, k => fields.lookup k
  | _, _ => none

/-- True exactly when this JSON value is the given string. -/
def Json.isStr (j : Json) (s : String) : Bool :=
  match j with
  | .str t => t = s
  | _ => false

/-- Elements of a JSON array; empty for everything else. -/
def Json.arrElems : Json → List Json
  | .arr xs => xs
  | _ => []

/-- Is this JSON value an object? -/
def Json.isObj : Json → Bool
  | .obj _ => true
  | _ => false

/-- Is this JSON value an array? -/
def Json.isArr : Json → Bool
  | .arr _ => true
  | _ => false

/-- Python truthiness of a JSON value (None, False, "", 0, [] and the empty
dict are falsy). -/
def pyTruthy : Json → Bool
  | .null => false
  | .boolean b => b
  | .str s => s ≠ ""
  | .num n => n ≠ 0
  | .arr xs => ¬xs.isEmpty
  | .obj fs => ¬fs.isEmpty

/-- Python's `a or b` on optional JSON values: keeps `a` when it is present
and truthy, otherwise yields `b` (even when `b` is falsy). `none` models
Python None. -/
def pyOr (a b : Option Json) : Option Json :=
  match a with
  | some j => if pyTruthy j then some j else b
  | none => b

/-- Python's `a or b` on optional strings (empty string is falsy). -/
def pyOrStr (a b : Option String) : Option String :=
  match a with
  | some s => if s = "" then b else some s
  | none => b

/-- Truthiness of an optional string (None and ("") are falsy). -/
def strTruthy : Option String → Bool
  | some s => s ≠ ""
  | none => false

/-- ASCII lowering of one character, as str.lower acts on the ASCII
strings this code compares. -/
def asciiLowerChar (c : Char) : Char :=
  if ('A' ≤ c ∧ c ≤ 'Z') then Char.ofNat (c.toNat + 32) else c

/-- str.lower() (ASCII fragment). -/
def strLower (s : String) : String :=
  ⟨s.data.map asciiLowerChar⟩

/-- Is p a prefix of the character list? -/
def listPfx : List Char → List Char → Bool
  | [], _ => true
  | _ :: _, [] => false
  | a :: as, b :: bs => a = b && listPfx as bs

/-- s.startswith(p). -/
def strStarts (s p : String) : Bool :=
  listPfx p.data s.data

/-- First present-and-truthy value in a priority list of lookups; skips
absent fields and falsy values alike. -/
def firstTruthy : List (Option Json) → Option Json
  | [] => none
  | none :: rest => firstTruthy rest
  | some j :: rest => if pyTruthy j then some j else firstTruthy rest

/-- Python exceptions that the modelled code can raise. -/
inductive PyErr where
  | httpError (status : Nat) (body : Option Json)
  | timeoutErr (msg : String)
  | runtimeErr (msg : String)
  | typeErr (msg : String)
  | valueErr (msg : String)
  | attrErr (msg : String)
  | keyErr (msg : String)
  | exc (msg : String)

/-- Rendering str(ex) for the structured error objects the tools build.
The exact wording requests uses for HTTPError is abstracted; only the other
constructors carry their source message verbatim. -/
def pyErrMessage : PyErr → String
  | .httpError s _ => "HTTPError status " ++ toString s
  | .timeoutErr m => m
  | .runtimeErr m => m
  | .typeErr m => m
  | .valueErr m => m
  | .attrErr m => m
  | .keyErr m => m
  | .exc m => m

/-- A normalized HTTP response as the model sees it: status code, the parsed
JSON body (none when r.json() would raise), the raw text, and the two
response headers the code consults. -/
structure HttpResponse where
  status : Nat
  text : String := ""
  body : Option Json := none
  asyncOp : Option String := none
  location : Option String := none

/-- Provider requests the modelled code issues, in order. Poll GETs inside
the delete_vm loop are not recorded here (they are driven by the poll
oracle of delete_vm itself). -/
inductive Req where
  | tokenReq
  | getVmList
  | getVnet
  | putNic
  | putDeployment
  | deleteDeploymentReq
  | deleteVmReq
  | putPublicIp (body : Json)

namespace AzureRest

/-- requests raise_for_status raises HTTPError exactly for 4xx/5xx. -/
def raisesForStatus (s : Nat) : Bool :=
  decide (400 ≤ s ∧ s < 600)

/-- r.raise_for_status() as an Except step. -/
def raiseForStatus (r : HttpResponse) : Except PyErr Unit :=
  if raisesForStatus r.status then .error (.httpError r.status r.body) else .ok ()

/-- Message used when r.json() raises on an undecodable body. -/
def jsonDecodeErrMsg : String := "response body is not valid JSON"

/-- r.json(): the parsed body, raising ValueError when undecodable. -/
def jsonOrRaise (r : HttpResponse) : Except PyErr Json :=
  match r.body with
  | some j => .ok j
  | none => .error (.valueErr jsonDecodeErrMsg)

/-- get_access_token: POST to the token endpoint, raise_for_status, parse,
index j with the access_token key (KeyError when missing). -/
def get_access_token (r : HttpResponse) : Except PyErr Json := do
  _ ← raiseForStatus r
  let j ← jsonOrRaise r
  match j.getOpt ("access_token") with
  | some v => .ok v
  | none => .error (.keyErr ("access_token"))

/-- list_vms: GET the VM list, raise_for_status, return parsed JSON. -/
def list_vms (r : HttpResponse) : Except PyErr Json := do
  _ ← raiseForStatus r
  jsonOrRaise r

/-- get_vm_instance_view: GET instanceView, raise_for_status, parse. -/
def get_vm_instance_view (r : HttpResponse) : Except PyErr Json := do
  _ ← raiseForStatus r
  jsonOrRaise r

/-- deploy_template: PUT the deployment; on HTTPError print diagnostics and
re-raise; otherwise return the parsed response. -/
def deploy_template (r : HttpResponse) : Except PyErr Json := do
  _ ← raiseForStatus r
  jsonOrRaise r

/-- delete_deployment: DELETE the deployment record; on HTTPError print
diagnostics and re-raise; returns None. -/
def delete_deployment (r : HttpResponse) : Except PyErr Unit :=
  match raiseForStatus r with
  | .error e => .error e
  | .ok _ => .ok ()

/-! ### get_vm_power_state -/

/-- statuses = instance_view.get("statuses") or [] -/
def statusesOf (iv : Json) : Json :=
  match pyOr (iv.getOpt ("statuses")) (some (Json.arr [])) with
  | some v => v
  | none => Json.arr []

/-- The loop body of get_vm_power_state over the status records:
code = s.get("code", ""); return code.split("/", 1)[1] for the first code
starting with PowerState/ (the first slash of such a code is the one ending
that prefix, so the suffix is code.drop 11). Records that are not dicts, or
whose code is not a string, make the Python raise (AttributeError). -/
def powerStateLoop : List Json → Except PyErr (Option String)
  | [] => .ok none
  | s :: rest =>
    match s with
    | .obj _ =>
      match (s.getOpt ("code")).getD (Json.str ("")) with
      | .str c =>
        if strStarts c ("PowerState/") then .ok (some (c.drop 11))
        else powerStateLoop rest
      | _ => .error (.attrErr ("code value has no startswith"))
    | _ => .error (.attrErr ("status record has no get"))

/-- get_vm_power_state(instance_view): extract the power state string or
None. Calling .get on a non-dict instance view raises AttributeError;
iterating a truthy non-list statuses value ends up raising as well (its
elements or keys lack .get). -/
def get_vm_power_state (instance_view : Json) : Except PyErr (Option String) :=
  match instance_view with
  | .obj _ =>
    match statusesOf instance_view with
    | .arr records => powerStateLoop records
    | _ => .error (.typeErr ("statuses is not iterable as records"))
  | _ => .error (.attrErr ("instance view has no get"))

/-- Modelled from the claim wording: the first record whose code field
(defaulted to ("")) starts with PowerState/ contributes the suffix after the
first slash; no match yields none. -/
def specPowerState : List Json → Option String
  | [] => none
  | r :: rest =>
    match (r.getOpt ("code")).getD (Json.str ("")) with
    | .str c =>
      if strStarts c ("PowerState/") then some (c.drop 11)
      else specPowerState rest
    | _ => specPowerState rest

/-- Well-formedness of a status-record list: every record is a dict and its
code, when present, is a string. -/
def wellFormedRecords (records : List Json) : Bool :=
  records.all fun r =>
    match r with
    | .obj _ =>
      match r.getOpt ("code") with
      | some (.str _) => true
      | some _ => false
      | none => true
    | _ => false

/-! ### delete_vm and its poll loop -/

/-- pj.get("properties", <empty dict>) -/
def propsOf (pj : Json) : Json :=
  (pj.getOpt ("properties")).getD (Json.obj [])

/-- status = pj.get("status") or pj.get("properties", ...).get("status") or
pj.get("properties", ...).get("provisioningState") — Python `or` keeps the
first truthy operand and otherwise yields the last operand's value. -/
def extractStatus (pj : Json) : Option Json :=
  pyOr (pj.getOpt ("status"))
    (pyOr ((propsOf pj).getOpt ("status")) ((propsOf pj).getOpt ("provisioningState")))

/-- status in (label tuple) for an optional JSON status value. -/
def statusIs (s : Option Json) (t : String) : Bool :=
  match s with
  | some j => j.isStr t
  | none => false

/-- Outcome of classifying one poll body. -/
inductive PollStep where
  | succeeded
  | failed
  | pending
deriving DecidableEq

/-- One iteration's classification of a poll body in delete_vm:
Succeeded/succeeded terminates successfully, Failed/failed raises,
anything else keeps polling. -/
def classifyPoll (pj : Json) : PollStep :=
  let s := extractStatus pj
  if statusIs s ("Succeeded") || statusIs s ("succeeded") then .succeeded
  else if statusIs s ("Failed") || statusIs s ("failed") then .failed
  else .pending

/-- Modelled from the amended claim wording: the status label is the first
present-and-truthy field among status, properties.status,
properties.provisioningState. -/
def specStatusLabel (pj : Json) : Option Json :=
  firstTruthy
    [pj.getOpt ("status"), (propsOf pj).getOpt ("status"),
      (propsOf pj).getOpt ("provisioningState")]

def deleteFailedMsg : String := "VM delete operation failed"

def timedOutMsg : String := "Timed out waiting for VM delete async operation"

/-- The polling while-loop of delete_vm. Wall-clock time is abstracted to a
fuel bound: `fuel` is how many more iterations fit before end_time, `k`
indexes the poll oracle. A failing poll GET (raise_for_status inside the
loop) is printed, slept over and retried; an undecodable poll body makes
pj = pr.json() raise out of the loop uncaught. -/
def delete_vm_poll (poll : Nat → HttpResponse) : Nat → Nat → Except PyErr (Option Json)
  | 0, _ => .error (.timeoutErr timedOutMsg)
  | fuel + 1, k =>
    let pr := poll k
    if raisesForStatus pr.status then delete_vm_poll poll fuel (k + 1)
    else
      match pr.body with
      | none => .error (.valueErr jsonDecodeErrMsg)
      | some pj =>
        match classifyPoll pj with
        | .succeeded => .ok (some pj)
        | .failed => .error (.exc deleteFailedMsg)
        | .pending => delete_vm_poll poll fuel (k + 1)

/-- async_url = r.headers.get("Azure-AsyncOperation") or
r.headers.get("Location"); a falsy result (absent or empty) means there is
nothing to poll. -/
def extract_async_url (r : HttpResponse) : Option String :=
  match pyOrStr r.asyncOp r.location with
  | some s => if s = "" then none else some s
  | none => none

/-- delete_vm: DELETE the VM; 200/204 return the parsed body when the text
is nonempty (undecodable bodies fall back to None); 202 polls the
Azure-AsyncOperation/Location URL via the poll oracle; other 4xx/5xx raise;
remaining statuses fall through returning None. -/
def delete_vm (r : HttpResponse) (pollOracle : String → Nat → HttpResponse)
    (fuel : Nat) : Except PyErr (Option Json) :=
  if r.status = 200 ∨ r.status = 204 then
    .ok (if r.text = "" then none else r.body)
  else if r.status = 202 then
    match extract_async_url r with
    | none => .ok none
    | some u => delete_vm_poll (pollOracle u) fuel 0
  else
    match raiseForStatus r with
    | .error e => .error e
    | .ok _ => .ok none

/-! ### create_public_ip with Basic-to-Standard SKU fallback -/

/-- The Basic-SKU request body of create_public_ip. -/
def basicPipBody (location : String) : Json :=
  Json.obj
    [("location", Json.str location),
      ("properties", Json.obj [("publicIPAllocationMethod", Json.str ("Dynamic"))])]

/-- The fallback Standard-SKU / Static-allocation request body. -/
def standardPipBody (location : String) : Json :=
  Json.obj
    [("location", Json.str location),
      ("sku", Json.obj [("name", Json.str ("Standard"))]),
      ("properties", Json.obj [("publicIPAllocationMethod", Json.str ("Static"))])]

/-- err_code = r.json().get("error", <empty dict>).get("code"), with every
failure along the way swallowed into None. -/
def errorCode (b : Option Json) : Option Json :=
  match b with
  | some bj =>
    match (bj.getOpt ("error")).getD (Json.obj []) with
    | .obj fs => (Json.obj fs).getOpt ("code")
    | _ => none
  | none => none

/-- err_code == "IPv4BasicSkuPublicIpCountLimitReached" -/
def errCodeIsBasicQuota (b : Option Json) : Bool :=
  match errorCode b with
  | some j => j.isStr ("IPv4BasicSkuPublicIpCountLimitReached")
  | none => false

/-- Placeholder for the f-string resource URL the function falls back to
when the response carries no truthy id. -/
def pipFallbackUrl : String :=
  "https://management.azure.com/subscriptions/sub/resourceGroups/rg/providers/Microsoft.Network/publicIPAddresses/name"

/-- j.get("id") or <constructed resource URL> -/
def idOr (j : Json) (fallback : String) : Json :=
  match pyOr (j.getOpt ("id")) (some (Json.str fallback)) with
  | some v => v
  | none => Json.str fallback

/-- create_public_ip: PUT the Basic body; on HTTPError inspect the error
code, retry once with the Standard/Static body exactly for the Basic-SKU
quota code (raising the fallback attempt's own error when it also fails),
and re-raise the original error for every other code. Returns the created
resource id. The list records the PUTs issued with their bodies. -/
def create_public_ip (location : String) (r r2 : HttpResponse) :
    Except PyErr Json × List Req :=
  if raisesForStatus r.status = false then
    match r.body with
    | none => (.error (.valueErr jsonDecodeErrMsg), [Req.putPublicIp (basicPipBody location)])
    | some j => (.ok (idOr j pipFallbackUrl), [Req.putPublicIp (basicPipBody location)])
  else
    if errCodeIsBasicQuota r.body then
      if raisesForStatus r2.status = false then
        match r2.body with
        | none =>
          (.error (.valueErr jsonDecodeErrMsg),
            [Req.putPublicIp (basicPipBody location), Req.putPublicIp (standardPipBody location)])
        | some j2 =>
          (.ok (idOr j2 pipFallbackUrl),
            [Req.putPublicIp (basicPipBody location), Req.putPublicIp (standardPipBody location)])
      else
        (.error (.httpError r2.status r2.body),
          [Req.putPublicIp (basicPipBody location), Req.putPublicIp (standardPipBody location)])
    else
      (.error (.httpError r.status r.body), [Req.putPublicIp (basicPipBody location)])

/-- Placeholder for the constructed NIC resource URL fallback. -/
def nicFallbackUrl : String :=
  "https://management.azure.com/subscriptions/sub/resourceGroups/rg/providers/Microsoft.Network/networkInterfaces/name"

/-- create_nic: PUT the NIC; on HTTPError print diagnostics and re-raise;
return j.get("id") or the constructed URL. -/
def create_nic (r : HttpResponse) : Except PyErr Json :=
  match raiseForStatus r with
  | .error e => .error e
  | .ok _ =>
    match r.body with
    | none => .error (.valueErr jsonDecodeErrMsg)
    | some j => .ok (idOr j nicFallbackUrl)

end AzureRest

namespace AzureRest

/-- Error message of the RuntimeError raised by the __main__ runner when
the expected virtual network is missing. -/
def vnetNotFoundMsg (vnet_name rg : String) : String :=
  ("vNet ") ++ vnet_name ++ (" not found in resource group ") ++ rg

/-- The auto-create branch of the __main__ test runner (no NIC provided):
GET the named virtual network; vnet_exists is true only for status 200
(a failing GET counts as not existing); when absent, raise RuntimeError
naming the VNet and the resource group before any other resource call;
otherwise optionally create the public IP, create the NIC bound to the
subnet, and submit the VM deployment (whose polling loop is outside this
fragment). The surrounding try in __main__ prints any raised error.
vnetExists models the try around the vnet GET: status 200 means present,
any other status or a raised request means absent. -/
def vnetExists (vnetStatusRes : Except PyErr Nat) : Bool :=
  match vnetStatusRes with
  | .ok s => s = 200
  | .error _ => false

def main_auto_create_chain (env : String → Option String)
    (vnetStatusRes : Except PyErr Nat) (location vnet_name rg : String)
    (pipResp pipFallbackResp nicResp deployResp : HttpResponse) :
    Except PyErr Json × List Req :=
  if vnetExists vnetStatusRes = false then
    (.error (.runtimeErr (vnetNotFoundMsg vnet_name rg)), [Req.getVnet])
  else
    let no_public_ip := strLower ((env ("AZ_TEST_NO_PUBLIC_IP")).getD ("true")) = ("true")
    if no_public_ip = false then
      match create_public_ip location pipResp pipFallbackResp with
      | (.error e, t) => (.error e, Req.getVnet :: t)
      | (.ok _pip, t) =>
        match create_nic nicResp with
        | .error e => (.error e, Req.getVnet :: t ++ [Req.putNic])
        | .ok _nic =>
          match deploy_template deployResp with
          | .error e => (.error e, Req.getVnet :: t ++ [Req.putNic, Req.putDeployment])
          | .ok j => (.ok j, Req.getVnet :: t ++ [Req.putNic, Req.putDeployment])
    else
      match create_nic nicResp with
      | .error e => (.error e, [Req.getVnet, Req.putNic])
      | .ok _nic =>
        match deploy_template deployResp with
        | .error e => (.error e, [Req.getVnet, Req.putNic, Req.putDeployment])
        | .ok j => (.ok j, [Req.getVnet, Req.putNic, Req.putDeployment])

end AzureRest

namespace AzureClient

/-- Error message of AzureClient.from_env on missing credentials. -/
def missingCredsMsg : String :=
  "Missing Azure credentials in environment: AZ_TENANT_ID, AZ_CLIENT_ID, AZ_CLIENT_SECRET, AZ_SUBSCRIPTION_ID"

/-- AzureClient.from_env: read the four credential variables and raise
RuntimeError unless all are present and truthy (Python all() rejects both
missing variables and empty strings). -/
def from_env (env : String → Option String) :
    Except PyErr (String × String × String × String) :=
  match env ("AZ_TENANT_ID"), env ("AZ_CLIENT_ID"),
      env ("AZ_CLIENT_SECRET"), env ("AZ_SUBSCRIPTION_ID") with
  | some t, some c, some s, some sub =>
    if t = ("") ∨ c = ("") ∨ s = ("") ∨ sub = ("") then
      .error (.runtimeErr missingCredsMsg)
    else .ok (t, c, s, sub)
  | _, _, _, _ => .error (.runtimeErr missingCredsMsg)

/-- j.get("value", []) as the list of VM items of one page. Pages whose
value field is a non-array would make list.extend misbehave or raise; they
are modelled as contributing no items. -/
def getValues (j : Json) : List Json :=
  match j.getOpt ("value") with
  | some (.arr xs) => xs
  | _ => []

/-- next_link = j.get("nextLink") or j.get("odata.nextLink"); the while
loop continues only on a truthy link value. -/
def getNextLink (j : Json) : Option Json :=
  match pyOr (j.getOpt ("nextLink")) (j.getOpt ("odata.nextLink")) with
  | some v => if pyTruthy v then some v else none
  | none => none

/-- The while next_link loop of list_vms_all: GET the link (the model's
fetch oracle maps a link value to the response), raise_for_status
(uncaught, so a failing page GET raises out of the method), parse, extend
the accumulator with the page's items, follow the page's own link. The
fuel bound stands in for loop progress; none means the chain did not end
within the bound. -/
def list_vms_all_loop (fetch : Json → HttpResponse) :
    Nat → List Json → Option Json → Option (Except PyErr (List Json))
  | _, acc, none => some (.ok acc)
  | 0, _, some _ => none
  | fuel + 1, acc, some link =>
    let r := fetch link
    match AzureRest.raiseForStatus r with
    | .error e => some (.error e)
    | .ok _ =>
      match r.body with
      | none => some (.error (.valueErr AzureRest.jsonDecodeErrMsg))
      | some j => list_vms_all_loop fetch fuel (acc ++ getValues j) (getNextLink j)

/-- AzureClient.list_vms_all: acquire a token, fetch the first page via
list_vms, then follow nextLink/odata.nextLink pages, concatenating the
value arrays. -/
def list_vms_all (tokenResp firstResp : HttpResponse)
    (fetch : Json → HttpResponse) (fuel : Nat) :
    Option (Except PyErr (List Json)) :=
  match AzureRest.get_access_token tokenResp with
  | .error e => some (.error e)
  | .ok _ =>
    match AzureRest.list_vms firstResp with
    | .error e => some (.error e)
    | .ok first => list_vms_all_loop fetch fuel (getValues first) (getNextLink first)

/-- Chains of pages reached from a link value: each link is fetched with a
non-raising status and a decodable body, and the last page carries no
further truthy link. -/
inductive PagesFrom (fetch : Json → HttpResponse) : Json → List Json → Prop
  | last (l : Json) (j : Json) :
    AzureRest.raisesForStatus (fetch l).status = false → (fetch l).body = some j →
    getNextLink j = none → PagesFrom fetch l [j]
  | step (l : Json) (j : Json) (l' : Json) (rest : List Json) :
    AzureRest.raisesForStatus (fetch l).status = false → (fetch l).body = some j →
    getNextLink j = some l' → PagesFrom fetch l' rest → PagesFrom fetch l (j :: rest)

/-- AzureClient.get_vm_power_state_safe: None when the helper module is
missing; otherwise run token acquisition, the instance-view fetch and the
power-state parse inside a try whose except returns None. -/
def get_vm_power_state_safe (azureRestAvailable : Bool)
    (tokenResp ivResp : HttpResponse) : Option String :=
  if azureRestAvailable = false then none
  else
    match AzureRest.get_access_token tokenResp with
    | .error _ => none
    | .ok _tok =>
      match AzureRest.get_vm_instance_view ivResp with
      | .error _ => none
      | .ok iv =>
        match AzureRest.get_vm_power_state iv with
        | .error _ => none
        | .ok s => s

end AzureClient

namespace McpPoc

/-- Gate check of the deploy_template tool:
os.environ.get("AZ_RUN_DEPLOY", "false").lower() == "true". -/
def az_run_deploy_enabled (env : String → Option String) : Bool :=
  strLower ((env ("AZ_RUN_DEPLOY")).getD ("false")) = ("true")

/-- Module-import side effect of mcp-poc.py:
os.environ["AZ_RUN_DEPLOY"] = os.environ.get("AZ_RUN_DEPLOY", "true"),
forcing the flag to "true" whenever it was not set. -/
def init_env (env : String → Option String) : String → Option String :=
  fun k =>
    if k = ("AZ_RUN_DEPLOY") then some ((env ("AZ_RUN_DEPLOY")).getD ("true"))
    else env k

/-- Point update of an environment, used to state that a tool's behaviour
does not depend on a given variable. -/
def setEnvVar (env : String → Option String) (k : String) (v : Option String) :
    String → Option String :=
  fun key => if key = k then v else env key

/-- Structured disabled response of the gated deploy_template tool. -/
def disabledMsg : String := "Deployments are disabled. Set AZ_RUN_DEPLOY=true to enable."

/-- Error message of _get_client when the azure modules failed to import. -/
def clientImportMsg : String :=
  "AzureClient not importable - ensure project root is on PYTHONPATH and src package exists"

/-- Error message of deploy_vm when no password is available. -/
def noPasswordMsg : String := "admin_password not provided and AZ_TEST_PASS not set"

/-- Message of the TypeError raised because mcp-poc.py calls
azure_rest_formcp.create_or_update_vm with keyword arguments
(os_disk_type, os_disk_size_gb, os_type) that its definition does not
accept; the call raises before issuing any HTTP request. -/
def createVmTypeErrMsg : String :=
  "create_or_update_vm() got an unexpected keyword argument os_disk_type"

/-- The per-call world of one tool invocation: the process environment,
whether the azure helper modules imported, and the responses the network
would return for each request the tools can issue. -/
structure Oracle where
  env : String → Option String
  azureModulesOk : Bool := true
  tokenResp : HttpResponse
  parseTemplateRes : Except PyErr Json := .ok (Json.obj [])
  parseParametersRes : Except PyErr Json := .ok (Json.obj [])
  deployResp : HttpResponse := { status := 200, body := some (Json.obj []) }
  deleteDeploymentResp : HttpResponse := { status := 200 }
  listVmsResp : HttpResponse := { status := 200, body := some (Json.obj []) }
  pipResp : HttpResponse := { status := 200, body := some (Json.obj []) }
  pipFallbackResp : HttpResponse := { status := 200, body := some (Json.obj []) }
  nicResp : HttpResponse := { status := 200, body := some (Json.obj []) }
  deleteVmResp : HttpResponse := { status := 204 }
  deleteVmPollOracle : String → Nat → HttpResponse := fun _ _ => { status := 200 }
  deleteVmFuel : Nat := 0

/-- _get_client(): raise when the azure modules are not importable, else
AzureClient.from_env (which raises on missing credentials). -/
def _get_client (o : Oracle) : Except PyErr Unit :=
  if o.azureModulesOk = false then .error (.runtimeErr clientImportMsg)
  else (AzureClient.from_env o.env).map fun _ => ()

/-- Shape of the structured error objects the tools return from their
except-clauses. -/
def errObj (e : PyErr) : Json :=
  Json.obj [(("error"), Json.str (pyErrMessage e))]

/-- The deploy_template tool: gated on AZ_RUN_DEPLOY; then client, token,
json.loads of both JSON string arguments (uncaught), the deployment PUT
(uncaught), json.dumps of the response. -/
def deploy_template_tool (o : Oracle) : Except PyErr Json × List Req :=
  if az_run_deploy_enabled o.env = false then
    (.ok (Json.obj [(("error"), Json.str disabledMsg)]), [])
  else
    match _get_client o with
    | .error e => (.error e, [])
    | .ok _ =>
      match AzureRest.get_access_token o.tokenResp with
      | .error e => (.error e, [Req.tokenReq])
      | .ok _ =>
        match o.parseTemplateRes with
        | .error e => (.error e, [Req.tokenReq])
        | .ok _ =>
          match o.parseParametersRes with
          | .error e => (.error e, [Req.tokenReq])
          | .ok _ =>
            match AzureRest.deploy_template o.deployResp with
            | .error e => (.error e, [Req.tokenReq, Req.putDeployment])
            | .ok j => (.ok j, [Req.tokenReq, Req.putDeployment])

/-- The list_vms tool: client, token, single-page list; no except clause,
every failure propagates. -/
def list_vms_tool (o : Oracle) : Except PyErr Json × List Req :=
  match _get_client o with
  | .error e => (.error e, [])
  | .ok _ =>
    match AzureRest.get_access_token o.tokenResp with
    | .error e => (.error e, [Req.tokenReq])
    | .ok _ =>
      match AzureRest.list_vms o.listVmsResp with
      | .error e => (.error e, [Req.tokenReq, Req.getVmList])
      | .ok j => (.ok j, [Req.tokenReq, Req.getVmList])

/-- The delete_deployment tool: client, token, delete; no gate and no
except clause, every failure propagates; returns a JSON ok marker. -/
def delete_deployment_tool (o : Oracle) : Except PyErr Json × List Req :=
  match _get_client o with
  | .error e => (.error e, [])
  | .ok _ =>
    match AzureRest.get_access_token o.tokenResp with
    | .error e => (.error e, [Req.tokenReq])
    | .ok _ =>
      match AzureRest.delete_deployment o.deleteDeploymentResp with
      | .error e => (.error e, [Req.tokenReq, Req.deleteDeploymentReq])
      | .ok _ => (.ok (Json.obj [(("ok"), Json.boolean true)]), [Req.tokenReq, Req.deleteDeploymentReq])

/-- The delete_vm_tool tool: client and token outside the try (their
failures propagate); the delete_vm call inside the try has its exceptions
converted to a structured error object; no AZ_RUN_DEPLOY gate. -/
def delete_vm_tool (o : Oracle) : Except PyErr Json × List Req :=
  match _get_client o with
  | .error e => (.error e, [])
  | .ok _ =>
    match AzureRest.get_access_token o.tokenResp with
    | .error e => (.error e, [Req.tokenReq])
    | .ok _ =>
      match AzureRest.delete_vm o.deleteVmResp o.deleteVmPollOracle o.deleteVmFuel with
      | .ok res =>
        (.ok (Json.obj [(("ok"), Json.boolean true), (("result"), res.getD Json.null)]),
          [Req.tokenReq, Req.deleteVmReq])
      | .error e => (.ok (errObj e), [Req.tokenReq, Req.deleteVmReq])

/-- Arguments of the deploy_vm tool that the model distinguishes. -/
structure DeployVmArgs where
  nic_id : Option String := none
  no_public_ip : Bool := true
  admin_password : Option String := none
  location : String := "eastasia"

/-- The deploy_vm tool: client and token outside the try; password
fallback to AZ_TEST_PASS with a structured error when both are missing;
then, inside the try, either the direct VM PUT (with a provided NIC) or
the auto-create chain of optional public IP and NIC. There is no VNet
existence check: the subnet id is built syntactically and passed straight
to create_nic. Every create_or_update_vm call raises TypeError (see
createVmTypeErrMsg) before issuing a request, which the except clause
converts to a structured error object. No AZ_RUN_DEPLOY gate. -/
def deploy_vm_tool (o : Oracle) (a : DeployVmArgs) : Except PyErr Json × List Req :=
  match _get_client o with
  | .error e => (.error e, [])
  | .ok _ =>
    match AzureRest.get_access_token o.tokenResp with
    | .error e => (.error e, [Req.tokenReq])
    | .ok _ =>
      let pw := if strTruthy a.admin_password then a.admin_password
        else o.env ("AZ_TEST_PASS")
      if strTruthy pw = false then
        (.ok (Json.obj [(("error"), Json.str noPasswordMsg)]), [Req.tokenReq])
      else
        if strTruthy a.nic_id then
          (.ok (errObj (.typeErr createVmTypeErrMsg)), [Req.tokenReq])
        else
          if a.no_public_ip = false then
            match AzureRest.create_public_ip a.location o.pipResp o.pipFallbackResp with
            | (.error e, t) => (.ok (errObj e), Req.tokenReq :: t)
            | (.ok _pip, t) =>
              match AzureRest.create_nic o.nicResp with
              | .error e => (.ok (errObj e), Req.tokenReq :: t ++ [Req.putNic])
              | .ok _nic =>
                (.ok (errObj (.typeErr createVmTypeErrMsg)), Req.tokenReq :: t ++ [Req.putNic])
          else
            match AzureRest.create_nic o.nicResp with
            | .error e => (.ok (errObj e), [Req.tokenReq, Req.putNic])
            | .ok _nic =>
              (.ok (errObj (.typeErr createVmTypeErrMsg)), [Req.tokenReq, Req.putNic])

end McpPoc

namespace AzureRest

/-- A poll iteration that keeps the delete_vm loop going: either the poll
GET itself fails raise_for_status (printed and retried), or the body
classifies as pending. -/
def nonTerminalStep (r : HttpResponse) : Bool :=
  raisesForStatus r.status ||
    (match r.body with
      | some pj => decide (classifyPoll pj = .pending)
      | none => false)

end AzureRest

/-! ### Concrete fixtures shared by the witnesses and counterexamples -/

/-- An environment carrying the four credentials and a test password. -/
def credsEnv : String → Option String := fun k =>
  if k = ("AZ_TENANT_ID") then some ("tenant")
  else if k = ("AZ_CLIENT_ID") then some ("client")
  else if k = ("AZ_CLIENT_SECRET") then some ("secret")
  else if k = ("AZ_SUBSCRIPTION_ID") then some ("sub")
  else if k = ("AZ_TEST_PASS") then some ("pw")
  else none

/-- credsEnv with the deployment gate explicitly set to "false". -/
def flagOffEnv : String → Option String := fun k =>
  if k = ("AZ_RUN_DEPLOY") then some ("false") else credsEnv k

/-- A successful token-endpoint response. -/
def tokOkResp : HttpResponse :=
  { status := 200, body := some (Json.obj [(("access_token"), Json.str ("tok"))]) }

/-- A fully healthy per-call world. -/
def baseOracle : McpPoc.Oracle :=
  { env := credsEnv, tokenResp := tokOkResp }

/-- The healthy world with the deployment gate off. -/
def flagOffOracle : McpPoc.Oracle :=
  { env := flagOffEnv, tokenResp := tokOkResp }

/-- A world whose token endpoint rejects the credentials. -/
def badTokenOracle : McpPoc.Oracle :=
  { env := credsEnv, tokenResp := { status := 401, body := some (Json.obj []) } }

/-- Provider error body for a missing subnet/VNet during NIC creation. -/
def nicErrBody : Json :=
  Json.obj [(("error"), Json.obj [(("code"), Json.str ("NotFound"))])]

/-- The healthy world except that the NIC PUT fails with 404 because the
referenced virtual network does not exist. -/
def vnetMissingOracle : McpPoc.Oracle :=
  { env := credsEnv, tokenResp := tokOkResp,
    nicResp := { status := 404, body := some nicErrBody } }

/-- The healthy world except that the VM DELETE is rejected with 409. -/
def deleteConflictOracle : McpPoc.Oracle :=
  { env := credsEnv, tokenResp := tokOkResp,
    deleteVmResp := { status := 409, body := some (Json.obj []) } }

/-- Provider 403 response whose error code is the Basic-SKU public IP
quota error. -/
def pipQuotaResp : HttpResponse :=
  { status := 403,
    body := some (Json.obj [(("error"),
      Json.obj [(("code"), Json.str ("IPv4BasicSkuPublicIpCountLimitReached"))])]) }

/-- A failing fallback response for the Standard-SKU retry. -/
def pipFallbackFailResp : HttpResponse :=
  { status := 500,
    body := some (Json.obj [(("error"), Json.obj [(("code"), Json.str ("InternalServerError"))])]) }

/-- A successful fallback response carrying the created resource id. -/
def pipFallbackOkResp : HttpResponse :=
  { status := 200, body := some (Json.obj [(("id"), Json.str ("pip-id"))]) }

/-- A 202 DELETE response carrying both poll headers. -/
def del202Resp : HttpResponse :=
  { status := 202, asyncOp := some ("https://async.example/op"),
    location := some ("https://location.example/op") }

/-- A poll oracle that always reports an in-progress operation. -/
def pollPendingOracle : String → Nat → HttpResponse := fun _ _ =>
  { status := 200, body := some (Json.obj [(("status"), Json.str ("InProgress"))]) }

/-- First page of a two-page VM listing. -/
def vmPage1 : Json :=
  Json.obj [(("value"), Json.arr [Json.str ("vm1")]), (("nextLink"), Json.str ("L2"))]

/-- Second and last page of the listing. -/
def vmPage2 : Json :=
  Json.obj [(("value"), Json.arr [Json.str ("vm2")])]

/-- Fetch oracle serving the second page for every link. -/
def vmFetch : Json → HttpResponse := fun _ =>
  { status := 200, body := some vmPage2 }

/-- A 200 response for the first listing page. -/
def vmFirstResp : HttpResponse :=
  { status := 200, body := some vmPage1 }

/-- An instance-view GET failing with a server error. -/
def iv500Resp : HttpResponse :=
  { status := 500 }

/-- The spec's round-trip instance view: a power state followed by a
provisioning state. -/
def roundTripIv : Json :=
  Json.obj [(("statuses"), Json.arr
    [Json.obj [(("code"), Json.str ("PowerState/running"))],
      Json.obj [(("code"), Json.str ("ProvisioningState/succeeded"))]])]

/-- An instance view with an empty status list. -/
def emptyStatusesIv : Json :=
  Json.obj [(("statuses"), Json.arr [])]

/-! ### Shared lemmas -/

/-- Characterization of the Bool membership test against one label. -/
theorem statusIs_iff (s : Option Json) (t : String) :
    AzureRest.statusIs s t = true ↔ s = some (Json.str t) := by
  rcases s with _ | j
  · simp [AzureRest.statusIs]
  · rcases j <;> simp [AzureRest.statusIs, Json.isStr]

/-- Python's chained `a or b or c` agrees with the first-truthy rule on
every truthy result. -/
theorem pyOr3_truthy_iff (a b c : Option Json) (j : Json) (hj : pyTruthy j = true) :
    pyOr a (pyOr b c) = some j ↔ firstTruthy [a, b, c] = some j := by
  rcases a with _ | x <;> rcases b with _ | y <;> rcases c with _ | z <;>
    simp only [pyOr, firstTruthy] <;> split_ifs <;> simp_all <;>
    rintro rfl <;> simp_all

/-- The delete_vm status extraction agrees with the first-truthy rule on
truthy labels. -/
theorem extractStatus_truthy_iff (pj j : Json) (hj : pyTruthy j = true) :
    AzureRest.extractStatus pj = some j ↔ AzureRest.specStatusLabel pj = some j := by
  unfold AzureRest.extractStatus AzureRest.specStatusLabel
  exact pyOr3_truthy_iff _ _ _ j hj

/-- Terminal-label membership in terms of the spec-side label. -/
theorem statusIs_spec_iff (pj : Json) (t : String) (ht : t ≠ ("")) :
    AzureRest.statusIs (AzureRest.extractStatus pj) t = true ↔
      AzureRest.specStatusLabel pj = some (Json.str t) := by
  rw [statusIs_iff]
  exact extractStatus_truthy_iff pj (Json.str t) (by simp [pyTruthy, ht])

/-- Claim C3 (amended): the delete_vm poll classification takes its label
from the first present-and-truthy field among status, properties.status
and properties.provisioningState, and terminates Succeeded exactly for the
labels "Succeeded"/"succeeded" and Failed exactly for "Failed"/"failed";
all other labels (including other capitalizations) keep polling. -/
theorem poll_status_priority_amended :
    (∀ (pj j : Json), pyTruthy j = true →
      (AzureRest.extractStatus pj = some j ↔ AzureRest.specStatusLabel pj = some j)) ∧
    (∀ pj : Json, AzureRest.classifyPoll pj = AzureRest.PollStep.succeeded ↔
      (AzureRest.specStatusLabel pj = some (Json.str ("Succeeded")) ∨
        AzureRest.specStatusLabel pj = some (Json.str ("succeeded")))) ∧
    (∀ pj : Json, AzureRest.classifyPoll pj = AzureRest.PollStep.failed ↔
      (AzureRest.specStatusLabel pj = some (Json.str ("Failed")) ∨
        AzureRest.specStatusLabel pj = some (Json.str ("failed")))) := by
  refine ⟨fun pj j hj => extractStatus_truthy_iff pj j hj, fun pj => ?_, fun pj => ?_⟩
  · rw [← statusIs_spec_iff pj ("Succeeded") (by decide),
      ← statusIs_spec_iff pj ("succeeded") (by decide)]
    unfold AzureRest.classifyPoll
    dsimp only
    split_ifs with h1 h2
    · exact iff_of_true rfl ((Bool.or_eq_true _ _).mp h1)
    · exact iff_of_false (by simp) (fun hr => h1 ((Bool.or_eq_true _ _).mpr hr))
    · exact iff_of_false (by simp) (fun hr => h1 ((Bool.or_eq_true _ _).mpr hr))
  · rw [← statusIs_spec_iff pj ("Failed") (by decide),
      ← statusIs_spec_iff pj ("failed") (by decide)]
    unfold AzureRest.classifyPoll
    dsimp only
    split_ifs with h1 h2
    · rcases (Bool.or_eq_true _ _).mp h1 with h | h <;> rw [statusIs_iff] at h <;>
        simp [AzureRest.statusIs, Json.isStr, h]
    · exact iff_of_true rfl ((Bool.or_eq_true _ _).mp h2)
    · exact iff_of_false (by simp) (fun hr => h2 ((Bool.or_eq_true _ _).mpr hr))

/-- Claim C3 (counterexample): the label SUCCEEDED equals succeeded
case-insensitively, yet the code classifies it as non-terminal and keeps
polling instead of terminating Succeeded. -/
theorem poll_status_case_sensitive_cex :
    strLower ("SUCCEEDED") = strLower ("succeeded") ∧
    AzureRest.classifyPoll (Json.obj [(("status"), Json.str ("SUCCEEDED"))]) =
      AzureRest.PollStep.pending := by
  exact ⟨rfl, rfl⟩

/-- Witness for C3: a literal Succeeded label terminates the loop. -/
theorem poll_status_priority_witness :
    AzureRest.classifyPoll (Json.obj [(("status"), Json.str ("Succeeded"))]) =
      AzureRest.PollStep.succeeded := by
  exact (poll_status_priority_amended.2.1
    (Json.obj [(("status"), Json.str ("Succeeded"))])).mpr (Or.inl rfl)

/-- Claim C5: on a 202 the poll location prefers a nonempty
Azure-AsyncOperation header over Location whatever Location holds, falls
back to a nonempty Location header, and with neither header delete_vm
returns completed-with-None rather than an error; when a location is
extracted, polling proceeds against it. -/
theorem delete_vm_async_url_spec (r : HttpResponse)
    (pollOracle : String → Nat → HttpResponse) (fuel : Nat) :
    (∀ v, r.asyncOp = some v → v ≠ ("") → AzureRest.extract_async_url r = some v) ∧
    (∀ w, (r.asyncOp = none ∨ r.asyncOp = some ("")) → r.location = some w →
      w ≠ ("") → AzureRest.extract_async_url r = some w) ∧
    (r.status = 202 → r.asyncOp = none → r.location = none →
      AzureRest.delete_vm r pollOracle fuel = .ok none) ∧
    (r.status = 202 → ∀ u, AzureRest.extract_async_url r = some u →
      AzureRest.delete_vm r pollOracle fuel =
        AzureRest.delete_vm_poll (pollOracle u) fuel 0) := by
  refine ⟨?_, ?_, ?_, ?_⟩
  · intro v hv hne
    simp [AzureRest.extract_async_url, pyOrStr, hv, hne]
  · intro w ha hl hne
    rcases ha with ha | ha <;>
      simp [AzureRest.extract_async_url, pyOrStr, ha, hl, hne]
  · intro h202 ha hl
    simp [AzureRest.delete_vm, h202, AzureRest.extract_async_url, pyOrStr, ha, hl]
  · intro h202 u hu
    simp [AzureRest.delete_vm, h202, hu]

/-- Witness for C5: with both headers present the async-operation header
wins, and polling targets it. -/
theorem delete_vm_async_url_witness :
    AzureRest.extract_async_url del202Resp = some ("https://async.example/op") ∧
    AzureRest.delete_vm del202Resp pollPendingOracle 0 =
      AzureRest.delete_vm_poll (pollPendingOracle ("https://async.example/op")) 0 0 := by
  refine ⟨(delete_vm_async_url_spec del202Resp pollPendingOracle 0).1 _ rfl (by decide), ?_⟩
  exact (delete_vm_async_url_spec del202Resp pollPendingOracle 0).2.2.2 rfl _
    ((delete_vm_async_url_spec del202Resp pollPendingOracle 0).1 _ rfl (by decide))

/-- A run of only non-terminal poll iterations exhausts the fuel and times
out. -/
theorem delete_vm_poll_nonterminal_timeout (poll : Nat → HttpResponse) :
    ∀ (fuel k : Nat), (∀ i, i < fuel → AzureRest.nonTerminalStep (poll (k + i)) = true) →
      AzureRest.delete_vm_poll poll fuel k =
        .error (.timeoutErr AzureRest.timedOutMsg) := by
  intro fuel
  induction fuel with
  | zero => intro k _; rfl
  | succ n ih =>
    intro k h
    have h0 := h 0 (Nat.succ_pos n)
    rw [Nat.add_zero] at h0
    have hrec : ∀ i, i < n → AzureRest.nonTerminalStep (poll (k + 1 + i)) = true := by
      intro i hi
      have hx := h (i + 1) (Nat.succ_lt_succ hi)
      rwa [show k + (i + 1) = k + 1 + i by omega] at hx
    unfold AzureRest.delete_vm_poll
    dsimp only
    by_cases hs : AzureRest.raisesForStatus (poll k).status = true
    · simp only [hs, if_true]
      exact ih (k + 1) hrec
    · rw [Bool.not_eq_true] at hs
      unfold AzureRest.nonTerminalStep at h0
      rw [hs, Bool.false_or] at h0
      simp only [hs, Bool.false_eq_true, if_false]
      rcases hb : (poll k).body with _ | pj
      · rw [hb] at h0; simp at h0
      · rw [hb] at h0
        simp only [decide_eq_true_eq] at h0
        simp only [h0]
        exact ih (k + 1) hrec

/-- Claim C4: when a 202 delete is polled and no terminal label is seen
before the wall-clock budget is exhausted (failing poll GETs included),
delete_vm raises the timeout error, which is a different error from the
operation-failed one, and never returns success; a poll GET that itself
fails simply advances to the next iteration. -/
theorem delete_vm_timeout_spec (r : HttpResponse)
    (pollOracle : String → Nat → HttpResponse) (fuel : Nat) (u : String)
    (h202 : r.status = 202)
    (hurl : AzureRest.extract_async_url r = some u)
    (hnt : ∀ i, i < fuel → AzureRest.nonTerminalStep (pollOracle u i) = true) :
    AzureRest.delete_vm r pollOracle fuel =
      .error (.timeoutErr AzureRest.timedOutMsg) ∧
    PyErr.timeoutErr AzureRest.timedOutMsg ≠ PyErr.exc AzureRest.deleteFailedMsg ∧
    (∀ (poll : Nat → HttpResponse) (m j : Nat),
      AzureRest.raisesForStatus (poll j).status = true →
      AzureRest.delete_vm_poll poll (m + 1) j = AzureRest.delete_vm_poll poll m (j + 1)) := by
  refine ⟨?_, by simp, ?_⟩
  · rw [(delete_vm_async_url_spec r pollOracle fuel).2.2.2 h202 u hurl]
    apply delete_vm_poll_nonterminal_timeout
    intro i hi
    rw [Nat.zero_add]
    exact hnt i hi
  · intro poll m j hj
    simp [AzureRest.delete_vm_poll, hj]

/-- Witness for C4: three pending polls against a 202 delete time out. -/
theorem delete_vm_timeout_witness :
    AzureRest.delete_vm del202Resp pollPendingOracle 3 =
      .error (.timeoutErr AzureRest.timedOutMsg) := by
  exact (delete_vm_timeout_spec del202Resp pollPendingOracle 3
    ("https://async.example/op") rfl rfl (by decide)).1

/-- The power-state scan never raises on well-formed records and follows
the first-match rule. -/
theorem powerStateLoop_wf (records : List Json)
    (hwf : AzureRest.wellFormedRecords records = true) :
    AzureRest.powerStateLoop records = .ok (AzureRest.specPowerState records) := by
  induction records with
  | nil => rfl
  | cons r rest ih =>
    unfold AzureRest.wellFormedRecords at hwf
    rw [List.all_cons] at hwf
    rcases Bool.and_eq_true _ _ |>.mp hwf with ⟨hr, hrest⟩
    have ihr := ih hrest
    cases r with
    | obj fs =>
      rcases hc : (Json.obj fs).getOpt ("code") with _ | cj
      · unfold AzureRest.powerStateLoop AzureRest.specPowerState
        rw [hc]
        dsimp only [Option.getD]
        split_ifs with hpfx <;> simp [ihr]
      · rw [hc] at hr
        cases cj with
        | str c =>
          unfold AzureRest.powerStateLoop AzureRest.specPowerState
          rw [hc]
          dsimp only [Option.getD]
          split_ifs with hpfx <;> simp [ihr]
        | null => simp at hr
        | boolean b => simp at hr
        | num n => simp at hr
        | arr xs => simp at hr
        | obj gs => simp at hr
    | null => simp at hr
    | boolean b => simp at hr
    | str s => simp at hr
    | num n => simp at hr
    | arr xs => simp at hr

/-- Claim C6: on an instance view that is an object whose (defaulted)
statuses value is an array of well-formed records, get_vm_power_state
returns, without raising, the suffix after the first slash of the code of
the first record whose code starts with PowerState/, and the absent marker
when no record matches (in particular for the empty status list). -/
theorem get_vm_power_state_spec (iv : Json)
    (hobj : iv.isObj = true)
    (harr : (AzureRest.statusesOf iv).isArr = true)
    (hwf : AzureRest.wellFormedRecords ((AzureRest.statusesOf iv).arrElems) = true) :
    AzureRest.get_vm_power_state iv =
      .ok (AzureRest.specPowerState ((AzureRest.statusesOf iv).arrElems)) := by
  cases iv with
  | obj fs =>
    unfold AzureRest.get_vm_power_state
    rcases hst : AzureRest.statusesOf (Json.obj fs) with _ | _ | _ | _ | records | _ <;>
      rw [hst] at harr <;> simp [Json.isArr] at harr
    rw [hst] at hwf
    simpa [Json.arrElems] using powerStateLoop_wf records hwf
  | null => simp [Json.isObj] at hobj
  | boolean b => simp [Json.isObj] at hobj
  | str s => simp [Json.isObj] at hobj
  | num n => simp [Json.isObj] at hobj
  | arr xs => simp [Json.isObj] at hobj

/-- Witness for C6: the synthetic round-trip list yields running, and the
empty status list yields the absent marker without an error. -/
theorem get_vm_power_state_witness :
    AzureRest.get_vm_power_state roundTripIv = .ok (some ("running")) ∧
    AzureRest.get_vm_power_state emptyStatusesIv = .ok none := by
  constructor
  · rw [get_vm_power_state_spec roundTripIv (by rfl) (by rfl) (by decide)]
    rfl
  · rw [get_vm_power_state_spec emptyStatusesIv (by rfl) (by rfl) (by decide)]
    rfl

/-- Claim C7 (amended): when the Basic PUT fails with the Basic-SKU quota
error code, create_public_ip issues exactly one retry whose body selects
the Standard SKU and Static allocation, returns the created identifier when
that retry succeeds, and raises the retry's own error when the retry fails;
for every other error code the original error is re-raised after the single
Basic PUT. -/
theorem create_public_ip_fallback_spec (location : String) (r r2 : HttpResponse)
    (hfail : AzureRest.raisesForStatus r.status = true)
    (hquota : AzureRest.errCodeIsBasicQuota r.body = true) :
    (AzureRest.create_public_ip location r r2).2 =
      [Req.putPublicIp (AzureRest.basicPipBody location),
        Req.putPublicIp (AzureRest.standardPipBody location)] ∧
    (AzureRest.standardPipBody location).getOpt ("sku") =
      some (Json.obj [(("name"), Json.str ("Standard"))]) ∧
    (((AzureRest.standardPipBody location).getOpt ("properties")).getD Json.null).getOpt
        ("publicIPAllocationMethod") = some (Json.str ("Static")) ∧
    (∀ j2, AzureRest.raisesForStatus r2.status = false → r2.body = some j2 →
      (AzureRest.create_public_ip location r r2).1 =
        .ok (AzureRest.idOr j2 AzureRest.pipFallbackUrl)) ∧
    (AzureRest.raisesForStatus r2.status = true →
      (AzureRest.create_public_ip location r r2).1 =
        .error (.httpError r2.status r2.body)) ∧
    (∀ (r' : HttpResponse), AzureRest.raisesForStatus r'.status = true →
      AzureRest.errCodeIsBasicQuota r'.body = false →
      AzureRest.create_public_ip location r' r2 =
        (.error (.httpError r'.status r'.body),
          [Req.putPublicIp (AzureRest.basicPipBody location)])) := by
  refine ⟨?_, rfl, rfl, ?_, ?_, ?_⟩
  · unfold AzureRest.create_public_ip
    simp only [hfail, hquota]
    rcases h2 : AzureRest.raisesForStatus r2.status with _ | _ <;> simp
    rcases hb : r2.body with _ | j2 <;> simp
  · intro j2 h2 hb
    unfold AzureRest.create_public_ip
    simp [hfail, hquota, h2, hb]
  · intro h2
    unfold AzureRest.create_public_ip
    simp [hfail, hquota, h2]
  · intro r' hf' hq'
    unfold AzureRest.create_public_ip
    simp [hf', hq']

/-- Claim C7 (counterexample): when the Standard-SKU retry also fails, the
error raised is the retry's error, not the original quota error that the
claim says is re-raised. -/
theorem create_public_ip_reraise_cex :
    (AzureRest.create_public_ip ("eastasia") pipQuotaResp pipFallbackFailResp).1 =
      .error (.httpError 500 pipFallbackFailResp.body) ∧
    Except.error (PyErr.httpError 500 pipFallbackFailResp.body) ≠
      (Except.error (PyErr.httpError 403 pipQuotaResp.body) : Except PyErr Json) := by
  constructor
  · rfl
  · simp [pipFallbackFailResp, pipQuotaResp]

/-- Witness for C7: the quota error followed by a successful Standard
retry yields the created resource id after exactly the two PUTs. -/
theorem create_public_ip_fallback_witness :
    (AzureRest.create_public_ip ("eastasia") pipQuotaResp pipFallbackOkResp).1 =
      .ok (Json.str ("pip-id")) ∧
    (AzureRest.create_public_ip ("eastasia") pipQuotaResp pipFallbackOkResp).2 =
      [Req.putPublicIp (AzureRest.basicPipBody ("eastasia")),
        Req.putPublicIp (AzureRest.standardPipBody ("eastasia"))] := by
  have h := create_public_ip_fallback_spec ("eastasia") pipQuotaResp pipFallbackOkResp
    (by rfl) (by rfl)
  refine ⟨?_, h.1⟩
  have h4 := h.2.2.2.1 (Json.obj [(("id"), Json.str ("pip-id"))]) (by rfl) (by rfl)
  rw [h4]
  rfl

/-- The pagination loop, when it returns successfully, has followed a
well-formed chain of pages from its pending link and appended their value
arrays in order to the accumulator. -/
theorem list_vms_all_loop_spec (fetch : Json → HttpResponse) :
    ∀ (fuel : Nat) (acc : List Json) (link : Option Json) (out : List Json),
      AzureClient.list_vms_all_loop fetch fuel acc link = some (.ok out) →
      (link = none ∧ out = acc) ∨
      (∃ l pages, link = some l ∧ AzureClient.PagesFrom fetch l pages ∧
        out = acc ++ (pages.map AzureClient.getValues).flatten) := by
  intro fuel
  induction fuel with
  | zero =>
    intro acc link out h
    rcases link with _ | l
    · left
      simp only [AzureClient.list_vms_all_loop] at h
      exact ⟨rfl, by injection h with h'; injection h' with h''; exact h''.symm⟩
    · simp only [AzureClient.list_vms_all_loop] at h
      exact Option.noConfusion h
  | succ n ih =>
    intro acc link out h
    rcases link with _ | l
    · left
      simp only [AzureClient.list_vms_all_loop] at h
      exact ⟨rfl, by injection h with h'; injection h' with h''; exact h''.symm⟩
    · right
      simp only [AzureClient.list_vms_all_loop] at h
      rcases hrs : AzureRest.raisesForStatus (fetch l).status with _ | _
      · rw [AzureRest.raiseForStatus, hrs] at h
        simp only [Bool.false_eq_true, if_false] at h
        rcases hb : (fetch l).body with _ | j
        · rw [hb] at h; simp at h
        · rw [hb] at h
          dsimp only at h
          rcases ih (acc ++ AzureClient.getValues j) (AzureClient.getNextLink j) out h with
            ⟨hlink, hout⟩ | ⟨l', pages', hlink, hchain, hout⟩
          · exact ⟨l, [j], rfl, AzureClient.PagesFrom.last l j hrs hb hlink, by
              simp [hout]⟩
          · exact ⟨l, j :: pages', rfl,
              AzureClient.PagesFrom.step l j l' pages' hrs hb hlink hchain, by
                simp [hout, List.append_assoc]⟩
      · rw [AzureRest.raiseForStatus, hrs] at h
        simp at h

/-- Claim C9: a successful list_vms_all run returns exactly the
concatenation, in page order, of the value arrays of the first page and of
every page reached by following nextLink/odata.nextLink until the link is
absent; pages without a value field contribute nothing. -/
theorem list_vms_all_pagination_spec (tokenResp firstResp : HttpResponse)
    (fetch : Json → HttpResponse) (fuel : Nat) (out : List Json)
    (h : AzureClient.list_vms_all tokenResp firstResp fetch fuel = some (.ok out)) :
    ∃ first, AzureRest.list_vms firstResp = .ok first ∧
      ((AzureClient.getNextLink first = none ∧ out = AzureClient.getValues first) ∨
        (∃ l pages, AzureClient.getNextLink first = some l ∧
          AzureClient.PagesFrom fetch l pages ∧
          out = AzureClient.getValues first ++ (pages.map AzureClient.getValues).flatten)) := by
  unfold AzureClient.list_vms_all at h
  rcases htok : AzureRest.get_access_token tokenResp with e | tok <;> rw [htok] at h
  · simp at h
  · rcases hfirst : AzureRest.list_vms firstResp with e | first <;> rw [hfirst] at h
    · simp at h
    · refine ⟨first, rfl, ?_⟩
      rcases list_vms_all_loop_spec fetch fuel (AzureClient.getValues first)
          (AzureClient.getNextLink first) out h with ⟨hlink, hout⟩ | hr
      · exact Or.inl ⟨hlink, hout⟩
      · exact Or.inr hr

/-- Witness for C9: a two-page listing concatenates both value arrays. -/
theorem list_vms_all_pagination_witness :
    ∃ first, AzureRest.list_vms vmFirstResp = .ok first ∧
      ((AzureClient.getNextLink first = none ∧
          [Json.str ("vm1"), Json.str ("vm2")] = AzureClient.getValues first) ∨
        (∃ l pages, AzureClient.getNextLink first = some l ∧
          AzureClient.PagesFrom vmFetch l pages ∧
          [Json.str ("vm1"), Json.str ("vm2")] =
            AzureClient.getValues first ++ (pages.map AzureClient.getValues).flatten)) := by
  exact list_vms_all_pagination_spec tokOkResp vmFirstResp vmFetch 1
    [Json.str ("vm1"), Json.str ("vm2")] (by rfl)

/-- Claim C10: get_vm_power_state_safe yields None whenever the helper
module is missing or any stage fails (token acquisition, instance-view
fetch, or power-state parsing, including a parse that would raise), and a
non-None result arises only from a fully successful pipeline. -/
theorem get_vm_power_state_safe_spec :
    (∀ tr ir, AzureClient.get_vm_power_state_safe false tr ir = none) ∧
    (∀ (b : Bool) tr ir e, AzureRest.get_access_token tr = .error e →
      AzureClient.get_vm_power_state_safe b tr ir = none) ∧
    (∀ (b : Bool) tr ir e, AzureRest.get_vm_instance_view ir = .error e →
      AzureClient.get_vm_power_state_safe b tr ir = none) ∧
    (∀ (b : Bool) tr ir iv e, AzureRest.get_vm_instance_view ir = .ok iv →
      AzureRest.get_vm_power_state iv = .error e →
      AzureClient.get_vm_power_state_safe b tr ir = none) ∧
    (∀ tr ir tok iv s, AzureRest.get_access_token tr = .ok tok →
      AzureRest.get_vm_instance_view ir = .ok iv →
      AzureRest.get_vm_power_state iv = .ok s →
      AzureClient.get_vm_power_state_safe true tr ir = s) := by
  refine ⟨fun tr ir => rfl, ?_, ?_, ?_, ?_⟩
  · intro b tr ir e htok
    cases b
    · rfl
    · simp [AzureClient.get_vm_power_state_safe, htok]
  · intro b tr ir e hiv
    cases b
    · rfl
    · rcases htok : AzureRest.get_access_token tr with e' | tok <;>
        simp [AzureClient.get_vm_power_state_safe, htok, hiv]
  · intro b tr ir iv e hiv hps
    cases b
    · rfl
    · rcases htok : AzureRest.get_access_token tr with e' | tok <;>
        simp [AzureClient.get_vm_power_state_safe, htok, hiv, hps]
  · intro tr ir tok iv s htok hiv hps
    simp [AzureClient.get_vm_power_state_safe, htok, hiv, hps]

/-- Witness for C10: a failing instance-view fetch is swallowed into
None. -/
theorem get_vm_power_state_safe_witness :
    AzureClient.get_vm_power_state_safe true tokOkResp iv500Resp = none := by
  exact get_vm_power_state_safe_spec.2.2.1 true tokOkResp iv500Resp
    (.httpError 500 none) (by rfl)

/-- Point updates of the environment leave every other variable alone. -/
theorem setEnvVar_ne (env : String → Option String) (k : String) (v : Option String)
    (key : String) (h : key ≠ k) : McpPoc.setEnvVar env k v key = env key := by
  simp [McpPoc.setEnvVar, h]

/-- Changing AZ_RUN_DEPLOY does not affect credential loading. -/
theorem from_env_setFlag (env : String → Option String) (v : Option String) :
    AzureClient.from_env (McpPoc.setEnvVar env ("AZ_RUN_DEPLOY") v) =
      AzureClient.from_env env := by
  unfold AzureClient.from_env
  rw [setEnvVar_ne env _ v ("AZ_TENANT_ID") (by decide),
    setEnvVar_ne env _ v ("AZ_CLIENT_ID") (by decide),
    setEnvVar_ne env _ v ("AZ_CLIENT_SECRET") (by decide),
    setEnvVar_ne env _ v ("AZ_SUBSCRIPTION_ID") (by decide)]

/-- Changing AZ_RUN_DEPLOY does not affect client construction. -/
theorem get_client_setFlag (o : McpPoc.Oracle) (v : Option String) :
    McpPoc._get_client { o with env := McpPoc.setEnvVar o.env ("AZ_RUN_DEPLOY") v } =
      McpPoc._get_client o := by
  simp [McpPoc._get_client, from_env_setFlag]

/-- Changing AZ_RUN_DEPLOY does not affect the test-password lookup. -/
theorem setFlag_test_pass (env : String → Option String) (v : Option String) :
    McpPoc.setEnvVar env ("AZ_RUN_DEPLOY") v ("AZ_TEST_PASS") = env ("AZ_TEST_PASS") :=
  setEnvVar_ne env _ v ("AZ_TEST_PASS") (by decide)

/-- delete_vm_tool ignores the deployment gate entirely. -/
theorem delete_vm_tool_setFlag (o : McpPoc.Oracle) (v : Option String) :
    McpPoc.delete_vm_tool { o with env := McpPoc.setEnvVar o.env ("AZ_RUN_DEPLOY") v } =
      McpPoc.delete_vm_tool o := by
  unfold McpPoc.delete_vm_tool
  rw [get_client_setFlag]

/-- delete_deployment ignores the deployment gate entirely. -/
theorem delete_deployment_tool_setFlag (o : McpPoc.Oracle) (v : Option String) :
    McpPoc.delete_deployment_tool { o with env := McpPoc.setEnvVar o.env ("AZ_RUN_DEPLOY") v } =
      McpPoc.delete_deployment_tool o := by
  unfold McpPoc.delete_deployment_tool
  rw [get_client_setFlag]

/-- deploy_vm ignores the deployment gate entirely. -/
theorem deploy_vm_tool_setFlag (o : McpPoc.Oracle) (v : Option String)
    (a : McpPoc.DeployVmArgs) :
    McpPoc.deploy_vm_tool { o with env := McpPoc.setEnvVar o.env ("AZ_RUN_DEPLOY") v } a =
      McpPoc.deploy_vm_tool o a := by
  unfold McpPoc.deploy_vm_tool
  rw [get_client_setFlag]
  dsimp only
  simp only [setFlag_test_pass]

/-- Claim C1 (amended): only deploy_template is gated by AZ_RUN_DEPLOY -
when its call-time value does not lower to "true" the tool returns the
structured disabled error having issued no request (and module import
defaults an unset flag to "true") - while delete_vm_tool,
delete_deployment and deploy_vm behave identically whatever the flag
holds. -/
theorem deploy_template_only_gated :
    (∀ o : McpPoc.Oracle, McpPoc.az_run_deploy_enabled o.env = false →
      McpPoc.deploy_template_tool o =
        (.ok (Json.obj [(("error"), Json.str McpPoc.disabledMsg)]), [])) ∧
    (∀ env : String → Option String, env ("AZ_RUN_DEPLOY") = none →
      McpPoc.init_env env ("AZ_RUN_DEPLOY") = some ("true")) ∧
    (∀ (o : McpPoc.Oracle) (v : Option String),
      McpPoc.delete_vm_tool { o with env := McpPoc.setEnvVar o.env ("AZ_RUN_DEPLOY") v } =
        McpPoc.delete_vm_tool o) ∧
    (∀ (o : McpPoc.Oracle) (v : Option String),
      McpPoc.delete_deployment_tool
          { o with env := McpPoc.setEnvVar o.env ("AZ_RUN_DEPLOY") v } =
        McpPoc.delete_deployment_tool o) ∧
    (∀ (o : McpPoc.Oracle) (v : Option String) (a : McpPoc.DeployVmArgs),
      McpPoc.deploy_vm_tool { o with env := McpPoc.setEnvVar o.env ("AZ_RUN_DEPLOY") v } a =
        McpPoc.deploy_vm_tool o a) := by
  refine ⟨?_, ?_, delete_vm_tool_setFlag, delete_deployment_tool_setFlag,
    deploy_vm_tool_setFlag⟩
  · intro o h
    simp [McpPoc.deploy_template_tool, h]
  · intro env h
    simp [McpPoc.init_env, h]

/-- Claim C1 (counterexample): with AZ_RUN_DEPLOY explicitly "false",
delete_vm_tool still issues the token and delete requests instead of
returning the structured disabled response. -/
theorem delete_vm_tool_not_gated_cex :
    McpPoc.az_run_deploy_enabled flagOffEnv = false ∧
    (McpPoc.delete_vm_tool flagOffOracle).2 = [Req.tokenReq, Req.deleteVmReq] ∧
    (McpPoc.delete_vm_tool flagOffOracle).1 =
      .ok (Json.obj [(("ok"), Json.boolean true), (("result"), Json.null)]) := by
  exact ⟨rfl, rfl, rfl⟩

/-- Witness for C1: deploy_template with the gate off returns the disabled
object and an empty request trace. -/
theorem deploy_template_only_gated_witness :
    McpPoc.deploy_template_tool flagOffOracle =
      (.ok (Json.obj [(("error"), Json.str McpPoc.disabledMsg)]), []) := by
  exact deploy_template_only_gated.1 flagOffOracle (by rfl)

/-- Claim C2 (amended): deploy_vm and delete_vm_tool convert failures of
the provider operation itself (the delete, public IP or NIC call, and even
the TypeError of the VM PUT) into a structured error object, but
client-construction failures and token-acquisition failures in every tool,
and operation failures in list_vms and delete_deployment, propagate as
exceptions past the tool boundary. -/
theorem tool_error_propagation_amended :
    (∀ (o : McpPoc.Oracle) (e : PyErr), McpPoc._get_client o = .ok () →
      AzureRest.get_access_token o.tokenResp = .error e →
      (McpPoc.list_vms_tool o).1 = .error e ∧
      (McpPoc.delete_deployment_tool o).1 = .error e ∧
      (McpPoc.delete_vm_tool o).1 = .error e) ∧
    (∀ (o : McpPoc.Oracle) (e : PyErr), McpPoc._get_client o = .ok () →
      (∃ tok, AzureRest.get_access_token o.tokenResp = .ok tok) →
      AzureRest.delete_vm o.deleteVmResp o.deleteVmPollOracle o.deleteVmFuel = .error e →
      (McpPoc.delete_vm_tool o).1 = .ok (McpPoc.errObj e)) ∧
    (∀ (o : McpPoc.Oracle) (e : PyErr), McpPoc._get_client o = .ok () →
      (∃ tok, AzureRest.get_access_token o.tokenResp = .ok tok) →
      AzureRest.list_vms o.listVmsResp = .error e →
      (McpPoc.list_vms_tool o).1 = .error e) ∧
    (∀ (o : McpPoc.Oracle) (e : PyErr), McpPoc._get_client o = .ok () →
      (∃ tok, AzureRest.get_access_token o.tokenResp = .ok tok) →
      AzureRest.delete_deployment o.deleteDeploymentResp = .error e →
      (McpPoc.delete_deployment_tool o).1 = .error e) ∧
    (∀ (o : McpPoc.Oracle) (e : PyErr), McpPoc._get_client o = .error e →
      (McpPoc.list_vms_tool o).1 = .error e ∧
      (McpPoc.delete_deployment_tool o).1 = .error e ∧
      (McpPoc.delete_vm_tool o).1 = .error e) ∧
    (∀ (o : McpPoc.Oracle) (e : PyErr) (a : McpPoc.DeployVmArgs),
      McpPoc._get_client o = .error e →
      (McpPoc.deploy_vm_tool o a).1 = .error e) ∧
    (∀ (o : McpPoc.Oracle) (e : PyErr) (a : McpPoc.DeployVmArgs),
      McpPoc._get_client o = .ok () →
      AzureRest.get_access_token o.tokenResp = .error e →
      (McpPoc.deploy_vm_tool o a).1 = .error e) ∧
    (∀ (o : McpPoc.Oracle) (e : PyErr) (a : McpPoc.DeployVmArgs),
      McpPoc._get_client o = .ok () →
      (∃ tok, AzureRest.get_access_token o.tokenResp = .ok tok) →
      strTruthy a.admin_password = true → strTruthy a.nic_id = false →
      a.no_public_ip = true →
      AzureRest.create_nic o.nicResp = .error e →
      (McpPoc.deploy_vm_tool o a).1 = .ok (McpPoc.errObj e)) ∧
    (∀ (o : McpPoc.Oracle) (e : PyErr) (a : McpPoc.DeployVmArgs),
      McpPoc._get_client o = .ok () →
      (∃ tok, AzureRest.get_access_token o.tokenResp = .ok tok) →
      strTruthy a.admin_password = true → strTruthy a.nic_id = false →
      a.no_public_ip = false →
      (AzureRest.create_public_ip a.location o.pipResp o.pipFallbackResp).1 = .error e →
      (McpPoc.deploy_vm_tool o a).1 = .ok (McpPoc.errObj e)) ∧
    (∀ (o : McpPoc.Oracle) (j : Json) (a : McpPoc.DeployVmArgs),
      McpPoc._get_client o = .ok () →
      (∃ tok, AzureRest.get_access_token o.tokenResp = .ok tok) →
      strTruthy a.admin_password = true → strTruthy a.nic_id = false →
      a.no_public_ip = true →
      AzureRest.create_nic o.nicResp = .ok j →
      (McpPoc.deploy_vm_tool o a).1 =
        .ok (McpPoc.errObj (.typeErr McpPoc.createVmTypeErrMsg))) := by
  refine ⟨?_, ?_, ?_, ?_, ?_, ?_, ?_, ?_, ?_, ?_⟩
  · intro o e hcl htok
    refine ⟨?_, ?_, ?_⟩ <;>
      simp [McpPoc.list_vms_tool, McpPoc.delete_deployment_tool,
        McpPoc.delete_vm_tool, hcl, htok]
  · intro o e hcl ⟨tok, htok⟩ hdel
    simp [McpPoc.delete_vm_tool, hcl, htok, hdel]
  · intro o e hcl ⟨tok, htok⟩ hop
    simp [McpPoc.list_vms_tool, hcl, htok, hop]
  · intro o e hcl ⟨tok, htok⟩ hop
    simp [McpPoc.delete_deployment_tool, hcl, htok, hop]
  · intro o e hcl
    refine ⟨?_, ?_, ?_⟩ <;>
      simp [McpPoc.list_vms_tool, McpPoc.delete_deployment_tool,
        McpPoc.delete_vm_tool, hcl]
  · intro o e a hcl
    simp [McpPoc.deploy_vm_tool, hcl]
  · intro o e a hcl htok
    simp [McpPoc.deploy_vm_tool, hcl, htok]
  · intro o e a hcl ⟨tok, htok⟩ hp hn hnp hnic
    simp [McpPoc.deploy_vm_tool, hcl, htok, hp, hn, hnp, hnic]
  · intro o e a hcl ⟨tok, htok⟩ hp hn hnp hpip
    rcases hp2 : AzureRest.create_public_ip a.location o.pipResp o.pipFallbackResp
      with ⟨res, t⟩
    rw [hp2] at hpip
    simp only at hpip
    subst hpip
    simp [McpPoc.deploy_vm_tool, hcl, htok, hp, hn, hnp, hp2]
  · intro o j a hcl ⟨tok, htok⟩ hp hn hnp hnic
    simp [McpPoc.deploy_vm_tool, hcl, htok, hp, hn, hnp, hnic]

/-- Claim C2 (counterexample): a rejected token exchange raises straight
out of the list_vms tool instead of being returned as a structured error
object. -/
theorem list_vms_tool_raises_cex :
    (McpPoc.list_vms_tool badTokenOracle).1 =
      .error (.httpError 401 (some (Json.obj []))) := by
  exact rfl

/-- Witness for C2: a conflicting delete is converted by delete_vm_tool
into a structured error object, and a 404 on the NIC PUT is converted by
deploy_vm into a structured error object. -/
theorem tool_error_propagation_witness :
    (McpPoc.delete_vm_tool deleteConflictOracle).1 =
      .ok (McpPoc.errObj (.httpError 409 (some (Json.obj [])))) ∧
    (McpPoc.deploy_vm_tool vnetMissingOracle { admin_password := some ("pw2") }).1 =
      .ok (McpPoc.errObj (.httpError 404 (some nicErrBody))) := by
  constructor
  · exact tool_error_propagation_amended.2.1 deleteConflictOracle
      (.httpError 409 (some (Json.obj []))) (by rfl) ⟨Json.str ("tok"), by rfl⟩ (by rfl)
  · exact tool_error_propagation_amended.2.2.2.2.2.2.2.1 vnetMissingOracle
      (.httpError 404 (some nicErrBody)) { admin_password := some ("pw2") } (by rfl)
      ⟨Json.str ("tok"), by rfl⟩ (by rfl) (by rfl) (by rfl) (by rfl)

/-- create_public_ip never issues a VNet GET. -/
theorem getVnet_not_in_pip (location : String) (r r2 : HttpResponse) :
    Req.getVnet ∉ (AzureRest.create_public_ip location r r2).2 := by
  unfold AzureRest.create_public_ip
  split_ifs <;> try split
  all_goals simp

/-- Membership helper for the deploy_vm traces. -/
theorem getVnet_notin_aux (t : List Req) (ht : Req.getVnet ∉ t) :
    Req.getVnet ∉ Req.tokenReq :: t ∧
    Req.getVnet ∉ Req.tokenReq :: (t ++ [Req.putNic]) := by
  constructor <;> intro hmem <;> rcases List.mem_cons.mp hmem with h | h
  · exact Req.noConfusion h
  · exact ht h
  · exact Req.noConfusion h
  · rcases List.mem_append.mp h with h2 | h2
    · exact ht h2
    · exact Req.noConfusion (List.mem_singleton.mp h2)

/-- Claim C8 (amended): the __main__ auto-create chain checks the named
virtual network first, and when the check does not return 200 it stops
with the RuntimeError naming the VNet and its resource group having issued
only the VNet GET - before any public IP, NIC or deployment request; the
deploy_vm tool, in contrast, performs no VNet existence request at all on
any input. -/
theorem vnet_check_amended_spec :
    (∀ (env : String → Option String) (vres : Except PyErr Nat)
        (loc vnet rg : String) (pip pip2 nic dep : HttpResponse),
      AzureRest.vnetExists vres = false →
      AzureRest.main_auto_create_chain env vres loc vnet rg pip pip2 nic dep =
        (.error (.runtimeErr (AzureRest.vnetNotFoundMsg vnet rg)), [Req.getVnet])) ∧
    (∀ vnet rg : String, AzureRest.vnetNotFoundMsg vnet rg =
      ("vNet ") ++ vnet ++ (" not found in resource group ") ++ rg) ∧
    (∀ (s : Nat), s ≠ 200 → AzureRest.vnetExists (.ok s) = false) ∧
    (∀ (o : McpPoc.Oracle) (a : McpPoc.DeployVmArgs),
      Req.getVnet ∉ (McpPoc.deploy_vm_tool o a).2) := by
  refine ⟨?_, fun vnet rg => rfl, ?_, ?_⟩
  · intro env vres loc vnet rg pip pip2 nic dep h
    simp [AzureRest.main_auto_create_chain, h]
  · intro s hs
    simp [AzureRest.vnetExists, hs]
  · intro o a
    unfold McpPoc.deploy_vm_tool
    rcases hcl : McpPoc._get_client o with e | u <;> simp only [hcl]
    · simp
    · rcases htok : AzureRest.get_access_token o.tokenResp with e | tok <;> simp only [htok]
      · simp
      · have ht : Req.getVnet ∉
            (AzureRest.create_public_ip a.location o.pipResp o.pipFallbackResp).2 :=
          getVnet_not_in_pip a.location o.pipResp o.pipFallbackResp
        rcases hpip : AzureRest.create_public_ip a.location o.pipResp o.pipFallbackResp
          with ⟨res, t⟩
        rw [hpip] at ht
        have ht2 : Req.getVnet ∉ t := ht
        rcases res with e | p <;>
          rcases hnic : AzureRest.create_nic o.nicResp with e2 | j <;>
          split_ifs <;>
          simp only [hpip, hnic] <;>
          first
            | exact (getVnet_notin_aux t ht2).1
            | exact (getVnet_notin_aux t ht2).2
            | simp

/-- Claim C8 (counterexample): with the named VNet absent, the deploy_vm
tool issues the NIC PUT without any prior VNet existence request and
surfaces the provider's NIC error, not a crafted not-found error naming
the VNet and resource group. -/
theorem deploy_vm_no_vnet_check_cex :
    (McpPoc.deploy_vm_tool vnetMissingOracle {}).2 = [Req.tokenReq, Req.putNic] ∧
    Req.getVnet ∉ [Req.tokenReq, Req.putNic] ∧
    (McpPoc.deploy_vm_tool vnetMissingOracle {}).1 =
      .ok (McpPoc.errObj (.httpError 404 (some nicErrBody))) := by
  refine ⟨rfl, by simp, rfl⟩

/-- Witness for C8: a 404 on the VNet GET stops the __main__ chain after
only that request, with the error naming the VNet and resource group. -/
theorem vnet_check_amended_witness :
    AzureRest.main_auto_create_chain credsEnv (.ok 404) ("eastasia") ("vnet-jack")
      ("poc") tokOkResp tokOkResp tokOkResp tokOkResp =
      (.error (.runtimeErr (AzureRest.vnetNotFoundMsg ("vnet-jack") ("poc"))),
        [Req.getVnet]) := by
  exact vnet_check_amended_spec.1 credsEnv (.ok 404) ("eastasia") ("vnet-jack")
    ("poc") tokOkResp tokOkResp tokOkResp tokOkResp (by rfl)
